import Mathlib

/-!
Verification development for the `plane-agent` repository
(`src/plane_agent/plane_agent.py`).

The development shallowly embeds the delegation / routing / streaming core
of the program: the capability filter, the per-domain agent pool built by
`create_agent`, the delegation handlers registered on the supervisor, the
skill-advertisement logic of `create_agent_server`, and the `/ag-ui`
streaming endpoint.  External collaborators (the model client, the MCP
transport, the filesystem, the event-producing run loop) are represented
as explicit parameters, so every definition is executable.

Two functions used by the core live in `plane_agent/utils.py`, which is not
part of the sources under verification (`tool_in_tag` and
`prune_large_messages`); those are modelled from the specification text and
are marked as such in their doc comments.
-/

namespace PlaneAgent

/-! ## String helpers mirroring the Python primitives used by the source -/

/-- Embedding of Python's `str.lower()` as used on tag strings and URLs:
character-wise lowercasing. -/
def pyLower (s : String) : String := String.mk (s.data.map Char.toLower)

/-- Embedding of Python's `str.replace("_", "-")` from
`tag.replace('_', '-')` in `create_agent` (src line 288). -/
def pyReplaceUnderscoreWithDash (s : String) : String :=
  String.mk (s.data.map (fun c => if c = '_' then '-' else c))

/-- Embedding of Python's substring containment test `needle in hay`
(scan every suffix for a prefix match). -/
def containsSub (needle : List Char) : List Char → Bool
  | [] => needle.isPrefixOf []
  | c :: t => needle.isPrefixOf (c :: t) || containsSub needle t

/-- Embedding of Python truthiness for an optional string
(`if mcp_url:`, `if custom_skills_directory:`): present and non-empty. -/
def optTruthy : Option String → Bool
  | some s => !(s == "")
  | none => false

/-- Embedding of `os.path.join` for the two-component joins the source
performs. -/
def pathJoin (a b : String) : String := a ++ "/" ++ b

/-! ## Data model -/

/-- A tool descriptor as seen by the capability filter: a name plus the
tag metadata supplied by the capability provider. -/
structure ToolDefinition where
  name : String
  tags : List String
deriving DecidableEq, Repr

/-- Modelled from the spec: `tool_in_tag` is defined in
`plane_agent/utils.py`, which is absent from the sources; the spec states
"A tool belongs to a domain iff the domain tag is a literal member of the
tool's tag set (tag matching is case-normalized, exact string match, no
wildcarding)". -/
def tool_in_tag (tool_def : ToolDefinition) (tag : String) : Bool :=
  tool_def.tags.any (fun s => pyLower s == pyLower tag)

/-- Embedding of `filter_func` (src lines 264-265): the per-tag closure
passed to `ts.filtered`; it forwards to `tool_in_tag` with the captured
tag.  The source's unused `ctx` parameter is dropped. -/
def filter_func (tag : String) (tool_def : ToolDefinition) : Bool :=
  tool_in_tag tool_def tag

/-! ## Capability providers and per-domain toolset construction -/

/-- A capability provider (MCP toolset) as the pool-construction loop sees
it: the tools it offers, and whether it supports selective filtering
(`hasattr(ts, "filtered")` in the source; an object without the attribute
also fails the `try` fallback with an `AttributeError`). -/
structure MCPToolset where
  tools : List ToolDefinition
  supportsFiltered : Bool
deriving DecidableEq, Repr

/-- Embedding of the tool-filtering loop of `create_agent`
(src lines 262-286): for each provider, if it supports `filtered` the
domain receives the provider's tools restricted by `filter_func`;
otherwise the `except Exception: pass` branch drops the provider without
appending anything and without logging. -/
def build_tag_toolsets (agent_toolsets : List MCPToolset) (tag : String) :
    List (List ToolDefinition) :=
  agent_toolsets.filterMap (fun ts =>
    if ts.supportsFiltered then some (ts.tools.filter (filter_func tag)) else none)

/-! ## Domain configuration table -/

/-- Per-domain static configuration: system prompt and agent name. -/
structure AgentConfig where
  prompt : String
  name : String
deriving DecidableEq, Repr

/-- Embedding of the `AGENTS_CONFIG` table (src lines 106-179), in source
order. -/
def AGENTS_CONFIG : List (String × AgentConfig) :=
  [("projects", ⟨"You are the Plane Projects Agent. Manage projects, members, features, and summaries.", "Plane_Projects_Agent"⟩),
   ("work_items", ⟨"You are the Plane Work Items Agent. Create, update, list, and search work items.", "Plane_Work_Items_Agent"⟩),
   ("cycles", ⟨"You are the Plane Cycles Agent. Manage cycles and their work items.", "Plane_Cycles_Agent"⟩),
   ("modules", ⟨"You are the Plane Modules Agent. Manage modules and their work items.", "Plane_Modules_Agent"⟩),
   ("pages", ⟨"You are the Plane Pages Agent. Manage project and workspace pages.", "Plane_Pages_Agent"⟩),
   ("users", ⟨"You are the Plane Users Agent. Retrieve user information.", "Plane_Users_Agent"⟩),
   ("states", ⟨"You are the Plane States Agent. Manage workflow states.", "Plane_States_Agent"⟩),
   ("labels", ⟨"You are the Plane Labels Agent. Manage labels.", "Plane_Labels_Agent"⟩),
   ("work_item_types", ⟨"You are the Plane Work Item Types Agent. Manage different types of work items.", "Plane_Work_Item_Types_Agent"⟩),
   ("work_item_comments", ⟨"You are the Plane Work Item Comments Agent. Manage comments on work items.", "Plane_Work_Item_Comments_Agent"⟩),
   ("work_item_links", ⟨"You are the Plane Work Item Links Agent. Manage links between work items.", "Plane_Work_Item_Links_Agent"⟩),
   ("work_item_properties", ⟨"You are the Plane Work Item Properties Agent. Manage custom properties.", "Plane_Work_Item_Properties_Agent"⟩),
   ("work_item_activities", ⟨"You are the Plane Work Item Activities Agent. Retrieve activity logs.", "Plane_Work_Item_Activities_Agent"⟩),
   ("work_logs", ⟨"You are the Plane Work Logs Agent. Manage work logs and time tracking.", "Plane_Work_Logs_Agent"⟩),
   ("initiatives", ⟨"You are the Plane Initiatives Agent. Manage initiatives.", "Plane_Initiatives_Agent"⟩),
   ("intake", ⟨"You are the Plane Intake Agent. Manage intake work items.", "Plane_Intake_Agent"⟩),
   ("workspaces", ⟨"You are the Plane Workspaces Agent. Manage workspace details and members.", "Plane_Workspaces_Agent"⟩),
   ("work_item_relations", ⟨"You are the Plane Work Item Relations Agent. Manage relations (blocking, etc.) between items.", "Plane_Work_Item_Relations_Agent"⟩)]

/-- The configured domain tags, in source order. -/
def AGENTS_CONFIG_tags : List String := AGENTS_CONFIG.map Prod.fst

/-! ## Skill directory resolution and child agent construction -/

/-- Embedding of `skill_dir_name = f"plane-{tag.replace('_', '-')}"`
(src line 288). -/
def skill_dir_name (tag : String) : String :=
  "plane-" ++ pyReplaceUnderscoreWithDash tag

/-- Embedding of the child skill directory resolution (src lines 288-300):
the caller-supplied custom root is checked first (only when Python-truthy),
then the default root; each candidate path is appended only when it exists
on the abstracted filesystem `dirExists`, and a missing directory is
skipped without error. -/
def child_skills_directories (custom_skills_directory : Option String)
    (dirExists : String → Bool) (default_skills_path : String) (tag : String) :
    List String :=
  (if optTruthy custom_skills_directory then
     (let p := pathJoin (custom_skills_directory.getD "") (skill_dir_name tag)
      if dirExists p then [p] else [])
   else []) ++
  (let p := pathJoin default_skills_path (skill_dir_name tag)
   if dirExists p then [p] else [])

/-- A pooled domain agent as constructed by the per-tag loop: its
capability toolsets (the MCP-derived filtered views) and the skill
directories whose `SkillsToolset` is also attached (src lines 302-304);
the two are kept apart because the spec's CapabilitySet covers only the
capability providers. -/
structure ChildAgent where
  toolsets : List (List ToolDefinition)
  skills_dirs : List String
deriving DecidableEq, Repr

/-- Embedding of one iteration of the per-domain loop of `create_agent`
(src lines 258-320), also returning the log events the iteration emits:
the source logs only `Loaded specialized skills for ...` when skill
directories were found; neither filtering branch (including the
`except Exception: pass` fallback for providers without `filtered`) logs
anything. -/
def create_child_agent (agent_toolsets : List MCPToolset)
    (custom_skills_directory : Option String) (dirExists : String → Bool)
    (default_skills_path : String) (tag : String) : ChildAgent × List String :=
  let tag_toolsets := build_tag_toolsets agent_toolsets tag
  let dirs := child_skills_directories custom_skills_directory dirExists
    default_skills_path tag
  let logs := if dirs.isEmpty then []
    else ["Loaded specialized skills for " ++ tag]
  (⟨tag_toolsets, dirs⟩, logs)

/-- Embedding of the pool construction `child_agents[tag] = agent`
(src lines 252-320): one entry per `AGENTS_CONFIG` row, in order. -/
def create_child_agents (agent_toolsets : List MCPToolset)
    (custom_skills_directory : Option String) (dirExists : String → Bool)
    (default_skills_path : String) : List (String × ChildAgent) :=
  AGENTS_CONFIG.map (fun p =>
    (p.1, (create_child_agent agent_toolsets custom_skills_directory dirExists
      default_skills_path p.1).1))

/-! ## Delegation registry

The supervisor's delegation tools (src lines 343-501).  Each handler
receives the pooled child agents (abstracted as a lookup from tag to a
run operation), the caller's run context, and the task text.  A child
run is fallible: a sub-agent run error or capability-call timeout
surfaces as `Except.error`, mirroring a raised exception. -/

/-- Result of an agent run: the textual output. -/
structure RunResult where
  output : String
deriving DecidableEq, Repr

/-- The caller's run context: usage accumulator and dependency bag, as
read by the handlers via `ctx.usage` and `ctx.deps`. -/
structure PARunContext (U D : Type) where
  usage : U
  deps : D

/-- The run operation of a pooled domain agent, as invoked by
`child_agents[tag].run(task, usage=ctx.usage, deps=ctx.deps)`. -/
abbrev ChildRun (U D : Type) : Type := String → U → D → Except String RunResult

/-- Type of a delegation handler registered with `@supervisor.tool`. -/
abbrev DelegationHandler (U D : Type) : Type :=
  (String → ChildRun U D) → PARunContext U D → String → Except String String

/-- Embedding of `assign_task_to_projects_agent` (src lines 343-350): run
the `projects` child agent on the task with the caller's usage and deps
and return `result.output`; the body has no error handling, so a failing
run propagates through `Except.map`. -/
def assign_task_to_projects_agent {U D : Type}
    (child_agents : String → ChildRun U D) (ctx : PARunContext U D)
    (task : String) : Except String String :=
  (child_agents "projects" task ctx.usage ctx.deps).map RunResult.output

/-- Embedding of `assign_task_to_work_items_agent` (src lines 352-359). -/
def assign_task_to_work_items_agent {U D : Type}
    (child_agents : String → ChildRun U D) (ctx : PARunContext U D)
    (task : String) : Except String String :=
  (child_agents "work_items" task ctx.usage ctx.deps).map RunResult.output

/-- Embedding of `assign_task_to_cycles_agent` (src lines 361-366). -/
def assign_task_to_cycles_agent {U D : Type}
    (child_agents : String → ChildRun U D) (ctx : PARunContext U D)
    (task : String) : Except String String :=
  (child_agents "cycles" task ctx.usage ctx.deps).map RunResult.output

/-- Embedding of `assign_task_to_modules_agent` (src lines 368-373). -/
def assign_task_to_modules_agent {U D : Type}
    (child_agents : String → ChildRun U D) (ctx : PARunContext U D)
    (task : String) : Except String String :=
  (child_agents "modules" task ctx.usage ctx.deps).map RunResult.output

/-- Embedding of `assign_task_to_pages_agent` (src lines 375-380). -/
def assign_task_to_pages_agent {U D : Type}
    (child_agents : String → ChildRun U D) (ctx : PARunContext U D)
    (task : String) : Except String String :=
  (child_agents "pages" task ctx.usage ctx.deps).map RunResult.output

/-- Embedding of `assign_task_to_users_agent` (src lines 382-387). -/
def assign_task_to_users_agent {U D : Type}
    (child_agents : String → ChildRun U D) (ctx : PARunContext U D)
    (task : String) : Except String String :=
  (child_agents "users" task ctx.usage ctx.deps).map RunResult.output

/-- Embedding of `assign_task_to_states_agent` (src lines 389-394). -/
def assign_task_to_states_agent {U D : Type}
    (child_agents : String → ChildRun U D) (ctx : PARunContext U D)
    (task : String) : Except String String :=
  (child_agents "states" task ctx.usage ctx.deps).map RunResult.output

/-- Embedding of `assign_task_to_labels_agent` (src lines 396-401). -/
def assign_task_to_labels_agent {U D : Type}
    (child_agents : String → ChildRun U D) (ctx : PARunContext U D)
    (task : String) : Except String String :=
  (child_agents "labels" task ctx.usage ctx.deps).map RunResult.output

/-- Embedding of `assign_task_to_work_item_types_agent`
(src lines 403-412). -/
def assign_task_to_work_item_types_agent {U D : Type}
    (child_agents : String → ChildRun U D) (ctx : PARunContext U D)
    (task : String) : Except String String :=
  (child_agents "work_item_types" task ctx.usage ctx.deps).map RunResult.output

/-- Embedding of `assign_task_to_work_item_comments_agent`
(src lines 414-423). -/
def assign_task_to_work_item_comments_agent {U D : Type}
    (child_agents : String → ChildRun U D) (ctx : PARunContext U D)
    (task : String) : Except String String :=
  (child_agents "work_item_comments" task ctx.usage ctx.deps).map RunResult.output

/-- Embedding of `assign_task_to_work_item_links_agent`
(src lines 425-434). -/
def assign_task_to_work_item_links_agent {U D : Type}
    (child_agents : String → ChildRun U D) (ctx : PARunContext U D)
    (task : String) : Except String String :=
  (child_agents "work_item_links" task ctx.usage ctx.deps).map RunResult.output

/-- Embedding of `assign_task_to_work_item_properties_agent`
(src lines 436-445). -/
def assign_task_to_work_item_properties_agent {U D : Type}
    (child_agents : String → ChildRun U D) (ctx : PARunContext U D)
    (task : String) : Except String String :=
  (child_agents "work_item_properties" task ctx.usage ctx.deps).map
    RunResult.output

/-- Embedding of `assign_task_to_work_item_activities_agent`
(src lines 447-456). -/
def assign_task_to_work_item_activities_agent {U D : Type}
    (child_agents : String → ChildRun U D) (ctx : PARunContext U D)
    (task : String) : Except String String :=
  (child_agents "work_item_activities" task ctx.usage ctx.deps).map
    RunResult.output

/-- Embedding of `assign_task_to_work_logs_agent` (src lines 458-465). -/
def assign_task_to_work_logs_agent {U D : Type}
    (child_agents : String → ChildRun U D) (ctx : PARunContext U D)
    (task : String) : Except String String :=
  (child_agents "work_logs" task ctx.usage ctx.deps).map RunResult.output

/-- Embedding of `assign_task_to_initiatives_agent` (src lines 467-474). -/
def assign_task_to_initiatives_agent {U D : Type}
    (child_agents : String → ChildRun U D) (ctx : PARunContext U D)
    (task : String) : Except String String :=
  (child_agents "initiatives" task ctx.usage ctx.deps).map RunResult.output

/-- Embedding of `assign_task_to_intake_agent` (src lines 476-481). -/
def assign_task_to_intake_agent {U D : Type}
    (child_agents : String → ChildRun U D) (ctx : PARunContext U D)
    (task : String) : Except String String :=
  (child_agents "intake" task ctx.usage ctx.deps).map RunResult.output

/-- Embedding of `assign_task_to_workspaces_agent` (src lines 483-490). -/
def assign_task_to_workspaces_agent {U D : Type}
    (child_agents : String → ChildRun U D) (ctx : PARunContext U D)
    (task : String) : Except String String :=
  (child_agents "workspaces" task ctx.usage ctx.deps).map RunResult.output

/-- Embedding of `assign_task_to_work_item_relations_agent`
(src lines 492-501). -/
def assign_task_to_work_item_relations_agent {U D : Type}
    (child_agents : String → ChildRun U D) (ctx : PARunContext U D)
    (task : String) : Except String String :=
  (child_agents "work_item_relations" task ctx.usage ctx.deps).map
    RunResult.output

/-- The delegation registry: every handler registered on the supervisor
via `@supervisor.tool`, keyed by the domain tag it serves, in source
order (src lines 343-501). -/
def delegation_registry (U D : Type) : List (String × DelegationHandler U D) :=
  [("projects", assign_task_to_projects_agent),
   ("work_items", assign_task_to_work_items_agent),
   ("cycles", assign_task_to_cycles_agent),
   ("modules", assign_task_to_modules_agent),
   ("pages", assign_task_to_pages_agent),
   ("users", assign_task_to_users_agent),
   ("states", assign_task_to_states_agent),
   ("labels", assign_task_to_labels_agent),
   ("work_item_types", assign_task_to_work_item_types_agent),
   ("work_item_comments", assign_task_to_work_item_comments_agent),
   ("work_item_links", assign_task_to_work_item_links_agent),
   ("work_item_properties", assign_task_to_work_item_properties_agent),
   ("work_item_activities", assign_task_to_work_item_activities_agent),
   ("work_logs", assign_task_to_work_logs_agent),
   ("initiatives", assign_task_to_initiatives_agent),
   ("intake", assign_task_to_intake_agent),
   ("workspaces", assign_task_to_workspaces_agent),
   ("work_item_relations", assign_task_to_work_item_relations_agent)]

/-! ## Message pruning (Streaming Response Adapter) -/

/-- A unit of conversational history: its role and its content. -/
structure Message where
  role : String
  content : String
deriving DecidableEq, Repr

/-- Modelled from the spec: the fixed byte threshold of the pruning
transform ("a fixed byte threshold (default conventionally 50 000)");
`prune_large_messages` lives in `plane_agent/utils.py`, which is absent
from the sources. -/
def MESSAGE_SIZE_THRESHOLD : Nat := 50000

/-- Modelled from the spec: the fixed-size placeholder carrying a
truncation marker that replaces an oversized message's content. -/
def TRUNCATION_PLACEHOLDER : String :=
  "[truncated: message content exceeded the size threshold]"

/-- Serialized size of a message, as compared against the byte
threshold. -/
def serialized_size (m : Message) : Nat := m.content.length

/-- Modelled from the spec: per-message pruning step of
`prune_large_messages` (absent `plane_agent/utils.py`): "any message
whose serialized size exceeds a fixed byte threshold ... is replaced
with a fixed-size placeholder that preserves role and a truncation
marker". -/
def prune_message (m : Message) : Message :=
  if MESSAGE_SIZE_THRESHOLD < serialized_size m then
    { role := m.role, content := TRUNCATION_PLACEHOLDER }
  else m

/-- Modelled from the spec: `prune_large_messages` (absent
`plane_agent/utils.py`) applied to a history: "message count and
ordering are otherwise untouched", so the transform is element-wise. -/
def prune_large_messages (messages : List Message) : List Message :=
  messages.map prune_message

/-! ## Streaming endpoint -/

/-- Default streaming media type (`SSE_CONTENT_TYPE` from
`pydantic_ai.ui`), used when the request carries no `Accept` header
(src line 601). -/
def SSE_CONTENT_TYPE : String := "text/event-stream"

/-- Embedding of `json.dumps` applied to the string `e.json()`
(src line 606): quote the payload, escaping backslash and quote. -/
def jsonDumpsString (s : String) : String :=
  "\"" ++ String.mk (s.data.flatMap (fun c =>
    if c = '\\' ∨ c = '\"' then ['\\', c] else [c])) ++ "\""

/-- The structured run-input value produced by
`AGUIAdapter.build_run_input`, reduced to the field the endpoint
touches: the conversational history. -/
structure RunInput where
  messages : List Message
deriving DecidableEq, Repr

/-- The two response shapes of the endpoint: a plain response with a
status code, media type and body, or a streaming response carrying the
encoded event stream. -/
inductive EndpointResponse where
  | plain (statusCode : Nat) (mediaType : String) (body : String)
  | stream (mediaType : String) (events : List String)
deriving DecidableEq, Repr

/-- Embedding of `ag_ui_endpoint` (src lines 599-621): resolve the accept
header with the SSE default, parse the body (a `ValidationError` becomes
a 422 plain response whose body is the JSON-dumped structured error,
without ever invoking the run), prune the parsed input's messages, and
otherwise stream the events produced by the run.  `build_run_input` and
the event-producing run (`adapter.run_stream` composed with
`encode_stream`) are external collaborators passed as parameters. -/
def ag_ui_endpoint (build_run_input : String → Except String RunInput)
    (run_stream : RunInput → List String) (acceptHeader : Option String)
    (body : String) : EndpointResponse :=
  let accept := acceptHeader.getD SSE_CONTENT_TYPE
  match build_run_input body with
  | Except.error e =>
      EndpointResponse.plain 422 "application/json" (jsonDumpsString e)
  | Except.ok run_input =>
      let pruned : RunInput := ⟨prune_large_messages run_input.messages⟩
      EndpointResponse.stream accept (run_stream pruned)

/-! ## Skill advertisement on the agent-to-agent mount -/

/-- A skill descriptor advertised on the agent-to-agent mount. -/
structure Skill where
  id : String
  name : String
  description : String
  tags : List String
  input_modes : List String
  output_modes : List String
deriving DecidableEq, Repr

/-- The generic fallback skill descriptor (src lines 559-568). -/
def fallback_skill : Skill :=
  ⟨"plane_agent", "Plane Agent", "General access to Plane tools",
    ["plane"], ["text"], ["text"]⟩

/-- Embedding of the skill discovery of `create_agent_server`
(src lines 541-555): load the default root, then extend with the custom
root's skills when that directory is supplied (Python-truthy) and
exists. -/
def discovered_skills (load_skills_from_directory : String → List Skill)
    (dirExists : String → Bool) (custom_skills_directory : Option String)
    (default_skills_path : String) : List Skill :=
  let skills := load_skills_from_directory default_skills_path
  if optTruthy custom_skills_directory &&
      dirExists (custom_skills_directory.getD "") then
    skills ++ load_skills_from_directory (custom_skills_directory.getD "")
  else skills

/-- Embedding of the fallback substitution `if not skills:`
(src lines 557-568): an empty discovery is replaced by the single
generic fallback skill. -/
def advertised_skills (load_skills_from_directory : String → List Skill)
    (dirExists : String → Bool) (custom_skills_directory : Option String)
    (default_skills_path : String) : List Skill :=
  let skills := discovered_skills load_skills_from_directory dirExists
    custom_skills_directory default_skills_path
  if skills.isEmpty then [fallback_skill] else skills

/-! ## Capability provider selection -/

/-- A constructed capability provider: an SSE-transport server, a
streamable-HTTP server, or one loaded from the multi-server
configuration document. -/
inductive MCPServer where
  | sse (url : String)
  | streamableHTTP (url : String)
  | fromConfig (entry : String)
deriving DecidableEq, Repr

/-- Embedding of the toolset selection of `create_agent`
(src lines 201-227): a Python-truthy `mcp_url` wins and chooses the
transport by the case-insensitive substring test
`"sse" in mcp_url.lower()`; otherwise a truthy `mcp_config` is loaded
via `load_mcp_servers`. -/
def select_agent_toolsets (mcp_url : Option String)
    (mcp_config : Option String) (load_mcp_servers : String → List MCPServer) :
    List MCPServer :=
  if optTruthy mcp_url then
    let u := mcp_url.getD ""
    if containsSub "sse".data (pyLower u).data then [MCPServer.sse u]
    else [MCPServer.streamableHTTP u]
  else if optTruthy mcp_config then load_mcp_servers (mcp_config.getD "")
  else []

end PlaneAgent

namespace PlaneAgent

/-- C3: For every tool definition and every domain tag, the capability
filter returns true iff the domain tag is literally present in the tool's
tag set after case normalization; it returns false for every tool with an
empty tag set, and returns true for each of the multiple domains a
multi-tagged tool carries. -/
theorem capability_filter_membership (tool_def : ToolDefinition) (tag : String) :
    (filter_func tag tool_def = true ↔ pyLower tag ∈ tool_def.tags.map pyLower) ∧
    (tool_def.tags = [] → filter_func tag tool_def = false) ∧
    (∀ t ∈ tool_def.tags, pyLower t = pyLower tag → filter_func tag tool_def = true) := by
  refine ⟨?_, ?_, ?_⟩
  · simp only [filter_func, tool_in_tag, List.any_eq_true, beq_iff_eq, List.mem_map]
  · intro h
    simp [filter_func, tool_in_tag, h]
  · intro t ht hlow
    simp only [filter_func, tool_in_tag, List.any_eq_true, beq_iff_eq]
    exact ⟨t, ht, hlow⟩

/-- Witness for `capability_filter_membership`: a tool tagged with both
`projects` and `cycles` (mixed case) is accepted for each of the two
domains, and a tag-less tool is rejected. -/
theorem capability_filter_membership_witness :
    (filter_func "projects" ⟨"t", ["Projects", "cycles"]⟩ = true ↔
      pyLower "projects" ∈ (["Projects", "cycles"].map pyLower)) ∧
    ((⟨"bare", []⟩ : ToolDefinition).tags = [] →
      filter_func "projects" ⟨"bare", []⟩ = false) ∧
    (∀ t ∈ (⟨"t", ["Projects", "cycles"]⟩ : ToolDefinition).tags,
      pyLower t = pyLower "cycles" → filter_func "cycles" ⟨"t", ["Projects", "cycles"]⟩ = true) := by
  refine ⟨(capability_filter_membership ⟨"t", ["Projects", "cycles"]⟩ "projects").1,
    fun h => (capability_filter_membership ⟨"bare", []⟩ "projects").2.1 h,
    (capability_filter_membership ⟨"t", ["Projects", "cycles"]⟩ "cycles").2.2⟩

/-- C1 counterexample: a capability provider that does not support
selective filtering, offering a tool tagged `projects`.  Contrary to the
claim, the constructed `projects` agent does not receive the provider's
full capability set (no toolset of the agent contains the tool), and the
construction emits no log event for the fallback. -/
theorem unfiltered_provider_not_attached_counterexample :
    (¬ ∃ tsl ∈ (create_child_agent [⟨[⟨"create_project", ["projects"]⟩], false⟩]
        none (fun _ => false) "skills" "projects").1.toolsets,
      (⟨"create_project", ["projects"]⟩ : ToolDefinition) ∈ tsl) ∧
    (create_child_agent [⟨[⟨"create_project", ["projects"]⟩], false⟩]
        none (fun _ => false) "skills" "projects").2 = [] := by
  exact ⟨by decide, rfl⟩

/-- C1 amended: if a capability provider does not support selective
filtering, pool construction raises no error but silently drops the
provider — it contributes no capabilities to any domain's agent, and the
construction's observable output (agent and log events alike) is exactly
as if the provider had not been configured. -/
theorem unfiltered_provider_silently_dropped (ts : MCPToolset)
    (agent_toolsets : List MCPToolset) (custom : Option String)
    (dirExists : String → Bool) (root tag : String)
    (h : ts.supportsFiltered = false) :
    create_child_agent (ts :: agent_toolsets) custom dirExists root tag =
      create_child_agent agent_toolsets custom dirExists root tag := by
  simp [create_child_agent, build_tag_toolsets, h]

/-- Witness for `unfiltered_provider_silently_dropped`: a concrete
unfilterable provider is dropped from the `cycles` agent's construction. -/
theorem unfiltered_provider_silently_dropped_witness :
    create_child_agent [⟨[⟨"x", ["projects"]⟩], false⟩] none (fun _ => false)
        "skills" "cycles" =
      create_child_agent [] none (fun _ => false) "skills" "cycles" :=
  unfiltered_provider_silently_dropped ⟨[⟨"x", ["projects"]⟩], false⟩ [] none
    (fun _ => false) "skills" "cycles" rfl

/-- C6: for every configured domain tag the pool contains exactly one
agent keyed by that tag, and every tool in every capability toolset of a
pooled agent carries the owning domain's tag (the unfiltered-fallback
exception never materialises, since unfilterable providers are dropped). -/
theorem domain_pool_unique_and_scoped (agent_toolsets : List MCPToolset)
    (custom : Option String) (dirExists : String → Bool) (root : String) :
    (∀ tag ∈ AGENTS_CONFIG_tags,
      ((create_child_agents agent_toolsets custom dirExists root).map
        Prod.fst).count tag = 1) ∧
    (∀ tag ag, (tag, ag) ∈ create_child_agents agent_toolsets custom dirExists root →
      ∀ tsl ∈ ag.toolsets, ∀ td ∈ tsl, tool_in_tag td tag = true) := by
  constructor
  · intro tag htag
    have hmap : (create_child_agents agent_toolsets custom dirExists root).map
        Prod.fst = AGENTS_CONFIG_tags := by
      simp [create_child_agents, AGENTS_CONFIG_tags, List.map_map, Function.comp]
    rw [hmap]
    revert htag
    revert tag
    decide
  · intro tag ag hmem tsl htsl td htd
    simp only [create_child_agents, List.mem_map, Prod.mk.injEq] at hmem
    obtain ⟨p, _, hp1, hp2⟩ := hmem
    subst hp1
    subst hp2
    simp only [create_child_agent, build_tag_toolsets, List.mem_filterMap] at htsl
    obtain ⟨ts, _, hts⟩ := htsl
    by_cases hsup : ts.supportsFiltered
    · simp only [hsup, if_true, Option.some.injEq] at hts
      subst hts
      exact (List.mem_filter.mp htd).2
    · simp [hsup] at hts

/-- Witness for `domain_pool_unique_and_scoped`: with one filterable
provider, the `projects` key occurs exactly once in the pool, and a
concrete tool reached through the pooled `projects` agent carries the
`projects` tag. -/
theorem domain_pool_unique_and_scoped_witness :
    (((create_child_agents [⟨[⟨"t", ["Projects"]⟩], true⟩] none (fun _ => false)
        "skills").map Prod.fst).count "projects" = 1) ∧
    tool_in_tag ⟨"t", ["Projects"]⟩ "projects" = true := by
  constructor
  · exact (domain_pool_unique_and_scoped [⟨[⟨"t", ["Projects"]⟩], true⟩] none
      (fun _ => false) "skills").1 "projects" (by decide)
  · exact (domain_pool_unique_and_scoped [⟨[⟨"t", ["Projects"]⟩], true⟩] none
      (fun _ => false) "skills").2 "projects" ⟨[[⟨"t", ["Projects"]⟩]], []⟩
      (by decide) [⟨"t", ["Projects"]⟩] (by decide) ⟨"t", ["Projects"]⟩ (by decide)

/-- C8: skill descriptors are resolved by filtering, in order, the custom
root candidate and then the default root candidate, each under the
conventional name `plane-` followed by the tag with underscores replaced
by dashes, keeping exactly the directories that exist (so a missing one
is skipped without error); and a domain with no matching skill directory
and no matching tools still yields a valid tool-less, skill-less agent in
the pool. -/
theorem skill_resolution_order_and_degenerate (custom : Option String)
    (dirExists : String → Bool) (root tag : String) :
    (child_skills_directories custom dirExists root tag =
      ((if optTruthy custom then
          [pathJoin (custom.getD "") ("plane-" ++ pyReplaceUnderscoreWithDash tag)]
        else []) ++
        [pathJoin root ("plane-" ++ pyReplaceUnderscoreWithDash tag)]).filter
        dirExists) ∧
    (∀ d ∈ child_skills_directories custom dirExists root tag, dirExists d = true) ∧
    (∀ tg ∈ AGENTS_CONFIG_tags,
      (tg, ChildAgent.mk [] []) ∈ create_child_agents [] none (fun _ => false) root) := by
  have hfilter : child_skills_directories custom dirExists root tag =
      ((if optTruthy custom then
          [pathJoin (custom.getD "") ("plane-" ++ pyReplaceUnderscoreWithDash tag)]
        else []) ++
        [pathJoin root ("plane-" ++ pyReplaceUnderscoreWithDash tag)]).filter
        dirExists := by
    by_cases hc : optTruthy custom
    · by_cases h1 : dirExists
          (pathJoin (custom.getD "") ("plane-" ++ pyReplaceUnderscoreWithDash tag)) <;>
        by_cases h2 : dirExists
            (pathJoin root ("plane-" ++ pyReplaceUnderscoreWithDash tag)) <;>
          simp [child_skills_directories, skill_dir_name, hc, h1, h2,
            List.filter_cons]
    · by_cases h2 : dirExists
          (pathJoin root ("plane-" ++ pyReplaceUnderscoreWithDash tag)) <;>
        simp [child_skills_directories, skill_dir_name, hc, h2, List.filter_cons]
  refine ⟨hfilter, ?_, ?_⟩
  · intro d hd
    rw [hfilter] at hd
    exact (List.mem_filter.mp hd).2
  · intro tg htg
    simp only [create_child_agents, List.mem_map]
    simp only [AGENTS_CONFIG_tags, List.mem_map] at htg
    obtain ⟨p, hp, hfst⟩ := htg
    refine ⟨p, hp, ?_⟩
    rw [hfst]
    have : (create_child_agent [] none (fun _ => false) root tg).1 =
        ChildAgent.mk [] [] := by
      simp [create_child_agent, build_tag_toolsets, child_skills_directories,
        optTruthy]
    rw [this]

/-- Witness for `skill_resolution_order_and_degenerate`: every directory
the resolver returns for `work_items` under an everything-exists
filesystem does exist, and the degenerate `projects` agent (no tools, no
skills) is present in the pool built from nothing. -/
theorem skill_resolution_order_and_degenerate_witness :
    ((fun _ => true : String → Bool)
        (pathJoin "skills" ("plane-" ++ pyReplaceUnderscoreWithDash "work_items")) = true) ∧
    ("projects", ChildAgent.mk [] []) ∈
      create_child_agents [] none (fun _ => false) "skills" := by
  constructor
  · exact (skill_resolution_order_and_degenerate none (fun _ => true) "skills"
      "work_items").2.1
      (pathJoin "skills" ("plane-" ++ pyReplaceUnderscoreWithDash "work_items"))
      (by decide)
  · exact (skill_resolution_order_and_degenerate none (fun _ => false) "skills"
      "projects").2.2 "projects" (by decide)

/-- C5: every registered delegation handler invokes the pooled domain
agent for its own registry tag with the task, passing through the
caller's usage accumulator and dependency bag unchanged, and returns the
sub-agent's textual output verbatim — no post-processing, truncation, or
reformatting. -/
theorem delegation_passthrough_verbatim {U D : Type} :
    ∀ p ∈ delegation_registry U D, ∀ (child_agents : String → ChildRun U D)
      (ctx : PARunContext U D) (task : String) (r : RunResult),
      child_agents p.1 task ctx.usage ctx.deps = Except.ok r →
      p.2 child_agents ctx task = Except.ok r.output := by
  intro p hp
  simp only [delegation_registry, List.mem_cons, List.not_mem_nil,
    or_false] at hp
  rcases hp with rfl|rfl|rfl|rfl|rfl|rfl|rfl|rfl|rfl|rfl|rfl|rfl|rfl|rfl|rfl|rfl|rfl|rfl <;>
    (intro ca ctx task r h;
     simp only at h;
     simp [assign_task_to_projects_agent, assign_task_to_work_items_agent,
       assign_task_to_cycles_agent, assign_task_to_modules_agent,
       assign_task_to_pages_agent, assign_task_to_users_agent,
       assign_task_to_states_agent, assign_task_to_labels_agent,
       assign_task_to_work_item_types_agent,
       assign_task_to_work_item_comments_agent,
       assign_task_to_work_item_links_agent,
       assign_task_to_work_item_properties_agent,
       assign_task_to_work_item_activities_agent,
       assign_task_to_work_logs_agent, assign_task_to_initiatives_agent,
       assign_task_to_intake_agent, assign_task_to_workspaces_agent,
       assign_task_to_work_item_relations_agent, h, Except.map])

/-- Witness for `delegation_passthrough_verbatim`: the `projects` handler
returns the concrete sub-agent output unchanged. -/
theorem delegation_passthrough_verbatim_witness :
    assign_task_to_projects_agent (U := Nat) (D := Unit)
      (fun _ _ _ _ => Except.ok ⟨"done"⟩) ⟨0, ()⟩ "list projects" =
      Except.ok (RunResult.mk "done").output :=
  delegation_passthrough_verbatim
    ("projects", assign_task_to_projects_agent) (by simp [delegation_registry])
    (fun _ _ _ _ => Except.ok ⟨"done"⟩) ⟨0, ()⟩ "list projects" ⟨"done"⟩ rfl

/-- C2 counterexample: a sub-agent run that fails is not converted into
an error string returned as a normal (unsuccessful) outcome — the
`projects` delegation handler propagates the failure itself, so its
result is not a success value. -/
theorem delegation_failure_not_converted_counterexample :
    (assign_task_to_projects_agent (U := Nat) (D := Unit)
      (fun _ _ _ _ => Except.error "sub-agent run error") ⟨0, ()⟩
      "list projects").isOk = false := rfl

/-- C2 amended: delegation handlers perform no failure recovery — a
sub-agent run failure (run error or capability-call timeout) propagates
out of every handler unchanged, instead of being converted at the
registry boundary into an error string returned as a normal task
outcome. -/
theorem delegation_failure_propagates {U D : Type} :
    ∀ p ∈ delegation_registry U D, ∀ (child_agents : String → ChildRun U D)
      (ctx : PARunContext U D) (task e : String),
      child_agents p.1 task ctx.usage ctx.deps = Except.error e →
      p.2 child_agents ctx task = Except.error e := by
  intro p hp
  simp only [delegation_registry, List.mem_cons, List.not_mem_nil,
    or_false] at hp
  rcases hp with rfl|rfl|rfl|rfl|rfl|rfl|rfl|rfl|rfl|rfl|rfl|rfl|rfl|rfl|rfl|rfl|rfl|rfl <;>
    (intro ca ctx task e h;
     simp only at h;
     simp [assign_task_to_projects_agent, assign_task_to_work_items_agent,
       assign_task_to_cycles_agent, assign_task_to_modules_agent,
       assign_task_to_pages_agent, assign_task_to_users_agent,
       assign_task_to_states_agent, assign_task_to_labels_agent,
       assign_task_to_work_item_types_agent,
       assign_task_to_work_item_comments_agent,
       assign_task_to_work_item_links_agent,
       assign_task_to_work_item_properties_agent,
       assign_task_to_work_item_activities_agent,
       assign_task_to_work_logs_agent, assign_task_to_initiatives_agent,
       assign_task_to_intake_agent, assign_task_to_workspaces_agent,
       assign_task_to_work_item_relations_agent, h, Except.map])

/-- Witness for `delegation_failure_propagates`: a timed-out `cycles`
sub-agent run surfaces from the handler as the same failure. -/
theorem delegation_failure_propagates_witness :
    assign_task_to_cycles_agent (U := Nat) (D := Unit)
      (fun _ _ _ _ => Except.error "capability-call timeout") ⟨0, ()⟩
      "advance cycle" = Except.error "capability-call timeout" :=
  delegation_failure_propagates
    ("cycles", assign_task_to_cycles_agent) (by simp [delegation_registry])
    (fun _ _ _ _ => Except.error "capability-call timeout") ⟨0, ()⟩
    "advance cycle" "capability-call timeout" rfl

/-- The pruning step preserves every message's role. -/
theorem prune_message_role (m : Message) : (prune_message m).role = m.role := by
  by_cases h : MESSAGE_SIZE_THRESHOLD < serialized_size m <;>
    simp [prune_message, h]

/-- The placeholder itself is below the threshold, so pruning a pruned
message changes nothing. -/
theorem prune_message_idem (m : Message) :
    prune_message (prune_message m) = prune_message m := by
  by_cases h : MESSAGE_SIZE_THRESHOLD < serialized_size m
  · have hp : ¬ MESSAGE_SIZE_THRESHOLD <
        serialized_size ⟨m.role, TRUNCATION_PLACEHOLDER⟩ := by
      simp only [serialized_size]
      decide
    simp [prune_message, h, hp]
  · simp [prune_message, h]

/-- C4: message pruning is idempotent, never changes the message count or
the role ordering of the sequence, and replaces exactly the messages
whose serialized size exceeds the 50 000-byte threshold with the
role-preserving placeholder carrying the truncation marker, leaving all
other messages untouched. -/
theorem message_pruning_properties (messages : List Message) :
    prune_large_messages (prune_large_messages messages) =
      prune_large_messages messages ∧
    (prune_large_messages messages).length = messages.length ∧
    (prune_large_messages messages).map Message.role =
      messages.map Message.role ∧
    (∀ i : Nat, (prune_large_messages messages).get? i =
      (messages.get? i).map (fun m =>
        if MESSAGE_SIZE_THRESHOLD < serialized_size m then
          ⟨m.role, TRUNCATION_PLACEHOLDER⟩
        else m)) := by
  refine ⟨?_, by simp [prune_large_messages], ?_, ?_⟩
  · simp [prune_large_messages, List.map_map, Function.comp_def,
      prune_message_idem]
  · simp only [prune_large_messages, List.map_map]
    exact List.map_congr_left (fun m _ => prune_message_role m)
  · intro i
    simp only [prune_large_messages, List.get?_eq_getElem?,
      List.getElem?_map]
    cases hmi : messages[i]? <;> simp [hmi, prune_message]

/-- C7: a body that fails run-input validation yields a plain
(non-streaming) HTTP 422 response whose body is the JSON-encoded
structured error; the supervisor run is never started — the endpoint's
result does not depend on the run-stream function — and no streamed
events are produced. -/
theorem invalid_run_input_yields_422
    (build_run_input : String → Except String RunInput)
    (run_stream run_stream' : RunInput → List String)
    (acceptHeader : Option String) (body e : String)
    (h : build_run_input body = Except.error e) :
    ag_ui_endpoint build_run_input run_stream acceptHeader body =
      EndpointResponse.plain 422 "application/json" (jsonDumpsString e) ∧
    ag_ui_endpoint build_run_input run_stream acceptHeader body =
      ag_ui_endpoint build_run_input run_stream' acceptHeader body ∧
    (∀ mt evs, ag_ui_endpoint build_run_input run_stream acceptHeader body ≠
      EndpointResponse.stream mt evs) := by
  refine ⟨by simp [ag_ui_endpoint, h], by simp [ag_ui_endpoint, h], ?_⟩
  intro mt evs
  simp [ag_ui_endpoint, h]

/-- Witness for `invalid_run_input_yields_422`: a parser that rejects the
concrete body produces the 422 plain response. -/
theorem invalid_run_input_yields_422_witness :
    ag_ui_endpoint (fun _ => Except.error "invalid run input")
      (fun _ => ["RUN_STARTED"]) none "not a run-input document" =
      EndpointResponse.plain 422 "application/json"
        (jsonDumpsString "invalid run input") :=
  (invalid_run_input_yields_422 (fun _ => Except.error "invalid run input")
    (fun _ => ["RUN_STARTED"]) (fun _ => []) none "not a run-input document"
    "invalid run input" rfl).1

/-- C9: when skill discovery at server startup finds nothing, the
agent-to-agent mount advertises exactly the single generic fallback
skill descriptor; when discovery is non-empty, it is advertised
unchanged. -/
theorem skill_advertisement_fallback
    (load_skills_from_directory : String → List Skill)
    (dirExists : String → Bool) (custom : Option String) (root : String) :
    (discovered_skills load_skills_from_directory dirExists custom root = [] →
      advertised_skills load_skills_from_directory dirExists custom root =
        [fallback_skill] ∧
      (advertised_skills load_skills_from_directory dirExists custom
        root).length = 1) ∧
    (discovered_skills load_skills_from_directory dirExists custom root ≠ [] →
      advertised_skills load_skills_from_directory dirExists custom root =
        discovered_skills load_skills_from_directory dirExists custom root) := by
  constructor
  · intro h
    constructor <;> simp [advertised_skills, h]
  · intro h
    simp [advertised_skills, List.isEmpty_iff, h]

/-- Witness for `skill_advertisement_fallback`: an empty discovery is
replaced by the fallback skill, and a non-empty one is advertised
unchanged. -/
theorem skill_advertisement_fallback_witness :
    (advertised_skills (fun _ => []) (fun _ => false) none "skills" =
      [fallback_skill]) ∧
    (advertised_skills
        (fun _ => [⟨"s", "S", "d", [], ["text"], ["text"]⟩])
        (fun _ => false) none "skills" =
      discovered_skills (fun _ => [⟨"s", "S", "d", [], ["text"], ["text"]⟩])
        (fun _ => false) none "skills") := by
  constructor
  · exact ((skill_advertisement_fallback (fun _ => []) (fun _ => false) none
      "skills").1 (by decide)).1
  · exact (skill_advertisement_fallback
      (fun _ => [⟨"s", "S", "d", [], ["text"], ["text"]⟩]) (fun _ => false)
      none "skills").2 (by decide)

/-- The substring scan agrees with the infix relation: the needle occurs
somewhere in the haystack iff the haystack splits around it. -/
theorem containsSub_iff_isInfix (needle hay : List Char) :
    containsSub needle hay = true ↔ List.IsInfix needle hay := by
  induction hay with
  | nil =>
      simp [containsSub, List.isPrefixOf_iff_prefix, List.prefix_nil,
        List.infix_nil]
  | cons c t ih =>
      simp [containsSub, Bool.or_eq_true, List.isPrefixOf_iff_prefix, ih,
        List.infix_cons_iff]

/-- C10: a supplied non-empty capability-provider URL takes precedence —
the selected toolsets are independent of the multi-server configuration
and its loader — and the transport is chosen by case-insensitive
substring match: an SSE provider is constructed iff the lowercased URL
contains `sse` as an infix, otherwise a streamable-HTTP provider. -/
theorem mcp_url_precedence_and_transport (u : String) (hu : u ≠ "")
    (cfg cfg' : Option String) (load_mcp_servers load' : String → List MCPServer) :
    (select_agent_toolsets (some u) cfg load_mcp_servers =
      select_agent_toolsets (some u) cfg' load') ∧
    (List.IsInfix "sse".data (pyLower u).data →
      select_agent_toolsets (some u) cfg load_mcp_servers = [MCPServer.sse u]) ∧
    (¬ List.IsInfix "sse".data (pyLower u).data →
      select_agent_toolsets (some u) cfg load_mcp_servers =
        [MCPServer.streamableHTTP u]) := by
  have htruthy : optTruthy (some u) = true := by
    simp [optTruthy, hu]
  refine ⟨by simp [select_agent_toolsets, htruthy], ?_, ?_⟩
  · intro hsse
    have : containsSub "sse".data (pyLower u).data = true :=
      (containsSub_iff_isInfix _ _).mpr hsse
    simp [select_agent_toolsets, htruthy, this]
  · intro hsse
    have : containsSub "sse".data (pyLower u).data = false := by
      by_contra hne
      exact hsse ((containsSub_iff_isInfix _ _).mp
        (by revert hne; cases containsSub "sse".data (pyLower u).data <;> simp))
    simp [select_agent_toolsets, htruthy, this]

/-- Witness for `mcp_url_precedence_and_transport`: a mixed-case URL
containing `SSE` selects the SSE transport, one without selects
streamable HTTP, and the configuration argument is ignored. -/
theorem mcp_url_precedence_and_transport_witness :
    (select_agent_toolsets (some "http://host/SSE") (some "cfg.json")
        (fun c => [MCPServer.fromConfig c]) =
      select_agent_toolsets (some "http://host/SSE") none (fun _ => [])) ∧
    (select_agent_toolsets (some "http://host/SSE") (some "cfg.json")
        (fun c => [MCPServer.fromConfig c]) = [MCPServer.sse "http://host/SSE"]) ∧
    (select_agent_toolsets (some "http://host/mcp") (some "cfg.json")
        (fun c => [MCPServer.fromConfig c]) =
      [MCPServer.streamableHTTP "http://host/mcp"]) := by
  refine ⟨?_, ?_, ?_⟩
  · exact (mcp_url_precedence_and_transport "http://host/SSE" (by decide)
      (some "cfg.json") none (fun c => [MCPServer.fromConfig c])
      (fun _ => [])).1
  · exact (mcp_url_precedence_and_transport "http://host/SSE" (by decide)
      (some "cfg.json") none (fun c => [MCPServer.fromConfig c])
      (fun _ => [])).2.1 (by decide)
  · exact (mcp_url_precedence_and_transport "http://host/mcp" (by decide)
      (some "cfg.json") none (fun c => [MCPServer.fromConfig c])
      (fun _ => [])).2.2 (by decide)

end PlaneAgent
